import Mathlib

/-!
Verification of the actor-group orchestration layer of
`openrlhf/trainer/ray/launcher.py`: worker rendezvous bootstrap
(`DistributedTorchRayActor.__init__`), group construction and placement
(`PPORayActorGroup._initiate_actors`), and group-to-group dispatch
(`async_fit_actor_model` and the other `async_*` methods).

The embedding is shallow: each Python function becomes a pure Lean
function.  Effects of the surrounding cluster runtime are captured by an
explicit environment: `NodeEnv` records the node IP returned by
`ray._private.services.get_node_ip_address()` (brackets stripped) and the
ephemeral port the OS assigns in `_get_free_port`.  Remote actor creation
and remote method calls are recorded as values (`WorkerRecord`,
`RemoteCall`, `FitCall`) holding exactly the arguments the source passes.
-/

namespace OpenRLHF

/-- Node environment a worker observes when self-assigning its rendezvous
endpoint: `node_ip` models `_get_current_node_ip()` and `free_port` models
`_get_free_port()`. -/
structure NodeEnv where
  node_ip : String
  free_port : Nat
deriving DecidableEq

/-- State of a `DistributedTorchRayActor` after `__init__`: the fields
`_world_size`, `_rank`, `_master_addr`, `_master_port`. -/
structure DistributedTorchRayActor where
  world_size : Nat
  rank : Nat
  master_addr : String
  master_port : Nat
deriving DecidableEq

/-- `DistributedTorchRayActor.__init__`: `master_addr if master_addr else
self._get_current_node_ip()` and `master_port if master_port else
self._get_free_port()`.  Python truthiness: `None` and `""` are falsy
strings, `None` and `0` are falsy ports. -/
def DistributedTorchRayActor.init (env : NodeEnv) (world_size rank : Nat)
    (master_addr : Option String) (master_port : Option Nat) :
    DistributedTorchRayActor :=
  { world_size := world_size
    rank := rank
    master_addr :=
      match master_addr with
      | some s => if s ≠ "" then s else env.node_ip
      | none => env.node_ip
    master_port :=
      match master_port with
      | some p => if p ≠ 0 then p else env.free_port
      | none => env.free_port }

/-- `DistributedTorchRayActor.get_master_addr_port`. -/
def DistributedTorchRayActor.get_master_addr_port
    (a : DistributedTorchRayActor) : String × Nat :=
  (a.master_addr, a.master_port)

/-- A Ray bundle is a string-keyed dict; a value is the (possibly `None`)
amount requested for that resource. -/
abbrev Bundle := List (String × Option Nat)

/-- Python dict assignment `d[k] = v`: overwrite the binding if the key is
present, append it otherwise. -/
def dictSet (d : Bundle) (k : String) (v : Option Nat) : Bundle :=
  if d.any (fun kv => kv.1 == k) then
    d.map (fun kv => if kv.1 == k then (k, v) else kv)
  else d ++ [(k, v)]

/-- Python dict lookup `d[k]`, `none` when the key is absent. -/
def dictGet (d : Bundle) (k : String) : Option (Option Nat) :=
  (d.find? (fun kv => kv.1 == k)).map Prod.snd

/-- The bundle list built in `_initiate_actors` when
`num_gpus_per_node > 1` and no placement group was supplied:
`[{"GPU": n, "CPU": n}]` per node, and when the `resources` dict is truthy
its first key gets `num_resources_per_node` on every bundle.  `resources`
holds the keys of the dict (`[]` for `None` or empty). -/
def mkBundles (num_nodes num_gpus_per_node : Nat) (resources : List String)
    (num_resources_per_node : Option Nat) : List Bundle :=
  let bundles : List Bundle := List.replicate num_nodes
    [("GPU", some num_gpus_per_node), ("CPU", some num_gpus_per_node)]
  match resources with
  | [] => bundles
  | name :: _ => bundles.map (fun b => dictSet b name num_resources_per_node)

/-- A placement-group request issued by `_initiate_actors`: the bundles,
the strategy string passed to `placement_group`, and whether the group
blocked on `ray.get(pg.ready())`. -/
structure PlacementRequest where
  bundles : List Bundle
  strategy : String
  waited_ready : Bool
deriving DecidableEq

/-- Creation record of one worker: the arguments of the
`.remote(world_size, rank, master_addr, master_port)` call, the
`placement_group_bundle_index` of its scheduling strategy (`none` when no
placement group is in effect), and the worker state after `__init__`. -/
structure WorkerRecord where
  created_world_size : Nat
  created_rank : Nat
  created_master_addr : Option String
  created_master_port : Option Nat
  bundle_index : Option Nat
  state : DistributedTorchRayActor
deriving DecidableEq

/-- Result of `PPORayActorGroup._initiate_actors`: the placement-group
request made (if any), whether a placement group is in effect for
scheduling (supplied or created), and `self._actor_handlers` in order. -/
structure InitOutcome where
  request : Option PlacementRequest
  pg_in_effect : Bool
  workers : List WorkerRecord
deriving DecidableEq

/-- `PPORayActorGroup._initiate_actors`, over an environment giving each
rank's node view.  `pg_supplied` is whether the caller passed a placement
group.  The master (rank 0) is created with `None, None`; when
`world_size > 1` the remaining ranks are created with the master's
`(master_addr, master_port)` and bundle index `rank // num_gpus_per_node`
when a placement group is in effect. -/
def initiateActors (env : Nat → NodeEnv) (num_nodes num_gpus_per_node : Nat)
    (pg_supplied : Bool) (resources : List String)
    (num_resources_per_node : Option Nat) : InitOutcome :=
  let world_size := num_nodes * num_gpus_per_node
  let request : Option PlacementRequest :=
    if 1 < num_gpus_per_node ∧ pg_supplied = false then
      some ⟨mkBundles num_nodes num_gpus_per_node resources
              num_resources_per_node,
            "STRICT_SPREAD", true⟩
    else none
  let pg_in_effect := pg_supplied || decide (1 < num_gpus_per_node)
  let master_state := DistributedTorchRayActor.init (env 0) world_size 0
    none none
  let master : WorkerRecord :=
    ⟨world_size, 0, none, none, if pg_in_effect then some 0 else none,
     master_state⟩
  let mp := master_state.get_master_addr_port
  let rest := (List.range (world_size - 1)).map (fun j =>
    let rank := j + 1
    ⟨world_size, rank, some mp.1, some mp.2,
     if pg_in_effect then some (rank / num_gpus_per_node) else none,
     DistributedTorchRayActor.init (env rank) world_size rank
       (some mp.1) (some mp.2)⟩)
  ⟨request, pg_in_effect, master :: rest⟩

/-- One issued remote call: the targeted worker and the method name. -/
structure RemoteCall where
  target : WorkerRecord
  method : String
deriving DecidableEq

/-- `async_init_model_from_pretrained`: one remote call per handler, in
handler order. -/
def async_init_model_from_pretrained (g : InitOutcome) : List RemoteCall :=
  g.workers.map (fun w => ⟨w, "init_model_from_pretrained"⟩)

/-- `async_save_model`: one remote call per handler, in handler order. -/
def async_save_model (g : InitOutcome) : List RemoteCall :=
  g.workers.map (fun w => ⟨w, "save_model"⟩)

/-- `async_run_method`: one remote call per handler, in handler order. -/
def async_run_method (g : InitOutcome) (method_name : String) :
    List RemoteCall :=
  g.workers.map (fun w => ⟨w, method_name⟩)

/-- Round-robin pick `l[i % len(l)]`; `none` for the empty list, where the
source either skips (falsy-list guard) or raises. -/
def roundRobin (l : List Nat) (i : Nat) : Option Nat :=
  l[i % l.length]?

/-- Arguments of one `actor.fit.remote(...)` call issued by
`async_fit_actor_model`.  Peer actor handles are modelled by the `Nat`
ids in the groups' handler lists. -/
structure FitCall where
  target : Nat
  critic_model : Option Nat
  initial_model : Option Nat
  reward_model : List (Option Nat)
  remote_rm_url : List String
  has_reward_fn : Bool
  critic_train_remote : Option Bool
deriving DecidableEq

/-- Body of the dispatch loop of `async_fit_actor_model` for policy
worker `ia = (i, actor)`: the round-robin peer bindings and the
`critic_train_remote` flag `(i < len(critic_actors)) if critic_actor else
None`. -/
def mkFitCall (critic_actors : Option (List Nat))
    (initial_actors : List Nat) (reward_model_groups : List (List Nat))
    (remote_rm_urls : List String) (has_reward_fn : Bool)
    (ia : Nat × Nat) : FitCall :=
  let i := ia.1
  let critic_actor := critic_actors.bind (fun l => roundRobin l i)
  { target := ia.2
    critic_model := critic_actor
    initial_model := roundRobin initial_actors i
    reward_model :=
      if remote_rm_urls.isEmpty then
        reward_model_groups.map (fun g => roundRobin g i)
      else []
    remote_rm_url := remote_rm_urls
    has_reward_fn := has_reward_fn
    critic_train_remote :=
      match critic_actor with
      | some _ => some (decide (i < (critic_actors.getD []).length))
      | none => none }

/-- `PPORayActorGroup.async_fit_actor_model`.  `policy_actors` is the
calling group's handler list; `critic_model_group` is `none` when no
critic group is passed; `remote_rm_urls = []` stands for a falsy
(`None` or empty) URL list.  The guard is the source's assertion
`(remote_rm_urls and len(remote_rm_urls) == 1) or (reward_model_groups
and len(reward_model_groups) == 1) or reward_fn is not None`; on failure
the assertion message is returned and no fit call is issued.  Right
after the assertion the source unconditionally dereferences
`critic_model_group._actor_handlers` in a debug print, so a `None`
critic group raises `AttributeError` there — still before any fit call —
and the `if critic_model_group else None` fallback on the next line is
unreachable for `None`. -/
def async_fit_actor_model (policy_actors : List Nat)
    (critic_model_group : Option (List Nat))
    (initial_model_group : List Nat)
    (reward_model_groups : List (List Nat))
    (remote_rm_urls : List String) (has_reward_fn : Bool) :
    Except String (List FitCall) :=
  if (!remote_rm_urls.isEmpty && remote_rm_urls.length == 1)
      || (!reward_model_groups.isEmpty && reward_model_groups.length == 1)
      || has_reward_fn then
    match critic_model_group with
    | none =>
      Except.error
        "AttributeError: NoneType object has no attribute _actor_handlers"
    | some critic_handlers =>
      Except.ok (policy_actors.enum.map
        (mkFitCall (some critic_handlers) initial_model_group
          reward_model_groups remote_rm_urls has_reward_fn))
  else
    Except.error "reward_fn must be specified if using multiple reward models"

/-! ## Helper lemmas -/

/-- A successful `async_fit_actor_model` returns exactly the mapped fit
calls of the dispatch loop. -/
theorem async_fit_ok_eq {p : List Nat} {c : Option (List Nat)}
    {r : List Nat} {rs : List (List Nat)} {urls : List String} {fn : Bool}
    {refs : List FitCall}
    (hok : async_fit_actor_model p c r rs urls fn = Except.ok refs) :
    refs = p.enum.map (mkFitCall c r rs urls fn) := by
  unfold async_fit_actor_model at hok
  split at hok
  · cases c with
    | none => cases hok
    | some cl =>
      injection hok with h
      exact h.symm
  · cases hok

/-- The assertion guard of `async_fit_actor_model`, restated: a list is
truthy with length one iff its length is one. -/
theorem fit_guard_iff (urls : List String) (rs : List (List Nat))
    (fn : Bool) :
    (((!urls.isEmpty && urls.length == 1)
        || (!rs.isEmpty && rs.length == 1) || fn) = true)
      ↔ (urls.length = 1 ∨ rs.length = 1 ∨ fn = true) := by
  cases urls <;> cases rs <;> cases fn <;> simp

/-- Round-robin pick on a nonempty list always yields the element at
`i % length`. -/
theorem roundRobin_pos (l : List Nat) (i : Nat) (h : 0 < l.length) :
    roundRobin l i = some (l.get ⟨i % l.length, Nat.mod_lt i h⟩) := by
  simp [roundRobin, List.getElem?_eq_getElem (Nat.mod_lt i h)]

/-- With a nonempty critic handler list the dispatched
`critic_train_remote` flag is exactly `i < len(critic_actors)`. -/
theorem mkFitCall_ctr (cl r : List Nat) (rs : List (List Nat))
    (urls : List String) (fn : Bool) (ia : Nat × Nat)
    (hc : 0 < cl.length) :
    (mkFitCall (some cl) r rs urls fn ia).critic_train_remote
      = some (decide (ia.1 < cl.length)) := by
  simp only [mkFitCall]
  rw [Option.some_bind, roundRobin_pos cl ia.1 hc]
  rfl

/-- Counting indices below `C` in an enumeration starting at `n`. -/
theorem countP_enumFrom_fst_lt {α : Type} (l : List α) :
    ∀ n C : Nat, (l.enumFrom n).countP (fun x => decide (x.1 < C))
      = min l.length (C - n) := by
  induction l with
  | nil => intro n C; simp
  | cons a t ih =>
    intro n C
    simp only [List.enumFrom_cons, List.countP_cons, ih (n + 1) C,
      List.length_cons]
    by_cases h : n < C
    · rw [if_pos (decide_eq_true h)]
      omega
    · rw [if_neg (fun hc => h (of_decide_eq_true hc))]
      omega

/-- A concrete environment used by witness instantiations: rank 0 sees a
different node address and port than the later ranks. -/
def envW : Nat → NodeEnv :=
  fun k => if k = 0 then ⟨"10.0.0.5", 29500⟩ else ⟨"10.9.9.9", 40000 + k⟩

/-! ## Claims -/

/-- C10: worker construction treats a falsy `master_addr` (`None` or `""`)
or falsy `master_port` (`None` or `0`) as absent and self-assigns the node
address and an OS-allocated port, so — the resolver returning a nonempty
address and the OS a nonzero port — a constructed worker never holds an
empty `master_addr` or a `master_port` of `0`, regardless of rank or
input. -/
theorem C10_falsy_endpoint_self_assignment
    (env : NodeEnv) (ws rank : Nat) (ma : Option String) (mp : Option Nat)
    (hip : env.node_ip ≠ "") (hfp : env.free_port ≠ 0) :
    ((ma = none ∨ ma = some "") →
      (DistributedTorchRayActor.init env ws rank ma mp).master_addr
        = env.node_ip)
    ∧ ((mp = none ∨ mp = some 0) →
      (DistributedTorchRayActor.init env ws rank ma mp).master_port
        = env.free_port)
    ∧ (DistributedTorchRayActor.init env ws rank ma mp).master_addr ≠ ""
    ∧ (DistributedTorchRayActor.init env ws rank ma mp).master_port ≠ 0 := by
  refine ⟨?_, ?_, ?_, ?_⟩
  · rintro (rfl | rfl) <;> simp [DistributedTorchRayActor.init]
  · rintro (rfl | rfl) <;> simp [DistributedTorchRayActor.init]
  · cases ma with
    | none => simpa [DistributedTorchRayActor.init] using hip
    | some s =>
      by_cases hs : s = "" <;>
        simp [DistributedTorchRayActor.init, hs, hip]
  · cases mp with
    | none => simpa [DistributedTorchRayActor.init] using hfp
    | some q =>
      by_cases hq : q = 0 <;>
        simp [DistributedTorchRayActor.init, hq, hfp]

/-- Witness for C10 at a concrete falsy input (`""`, `0`). -/
theorem C10_falsy_endpoint_self_assignment_witness :
    (((some "") = (none : Option String) ∨ (some "") = some "") →
      (DistributedTorchRayActor.init ⟨"10.0.0.7", 43210⟩ 4 2 (some "")
        (some 0)).master_addr = "10.0.0.7")
    ∧ (((some 0) = (none : Option Nat) ∨ (some 0) = some 0) →
      (DistributedTorchRayActor.init ⟨"10.0.0.7", 43210⟩ 4 2 (some "")
        (some 0)).master_port = 43210)
    ∧ (DistributedTorchRayActor.init ⟨"10.0.0.7", 43210⟩ 4 2 (some "")
        (some 0)).master_addr ≠ ""
    ∧ (DistributedTorchRayActor.init ⟨"10.0.0.7", 43210⟩ 4 2 (some "")
        (some 0)).master_port ≠ 0 :=
  C10_falsy_endpoint_self_assignment ⟨"10.0.0.7", 43210⟩ 4 2 (some "")
    (some 0) (by decide) (by decide)

/-- C6: the rank-0 worker is created with null `master_addr`/`master_port`
and self-assigns them from its node environment; every later-rank worker
is created with exactly the pair fetched from rank 0 via
`get_master_addr_port`, and (the fetched pair being truthy) retains it, so
all workers of a group hold identical `master_addr`/`master_port` equal to
rank 0's. -/
theorem C6_rendezvous_propagation
    (env : Nat → NodeEnv) (nodes gpn : Nat) (pg : Bool)
    (res : List String) (nrpn : Option Nat)
    (hip : (env 0).node_ip ≠ "") (hfp : (env 0).free_port ≠ 0) :
    ∃ w0 rest,
      (initiateActors env nodes gpn pg res nrpn).workers = w0 :: rest
      ∧ w0.created_master_addr = none ∧ w0.created_master_port = none
      ∧ w0.state.master_addr = (env 0).node_ip
      ∧ w0.state.master_port = (env 0).free_port
      ∧ ∀ w ∈ rest,
          w.created_master_addr = some (w0.state.get_master_addr_port.1)
          ∧ w.created_master_port = some (w0.state.get_master_addr_port.2)
          ∧ w.state.master_addr = w0.state.master_addr
          ∧ w.state.master_port = w0.state.master_port := by
  refine ⟨_, _, rfl, rfl, rfl, rfl, rfl, ?_⟩
  intro w hw
  simp only [initiateActors, List.mem_map, List.mem_range] at hw
  obtain ⟨j, hj, rfl⟩ := hw
  refine ⟨rfl, rfl, ?_, ?_⟩
  · simp [DistributedTorchRayActor.init,
      DistributedTorchRayActor.get_master_addr_port, hip]
  · simp [DistributedTorchRayActor.init,
      DistributedTorchRayActor.get_master_addr_port, hfp]

/-- Witness for C6: one node, three devices; the later ranks' environments
differ from rank 0's, yet all workers hold rank 0's endpoint. -/
theorem C6_rendezvous_propagation_witness :
    ∃ w0 rest,
      (initiateActors envW 1 3 false [] none).workers = w0 :: rest
      ∧ w0.created_master_addr = none ∧ w0.created_master_port = none
      ∧ w0.state.master_addr = (envW 0).node_ip
      ∧ w0.state.master_port = (envW 0).free_port
      ∧ ∀ w ∈ rest,
          w.created_master_addr = some (w0.state.get_master_addr_port.1)
          ∧ w.created_master_port = some (w0.state.get_master_addr_port.2)
          ∧ w.state.master_addr = w0.state.master_addr
          ∧ w.state.master_port = w0.state.master_port :=
  C6_rendezvous_propagation envW 1 3 false [] none (by decide) (by decide)

/-- Handler position 0 holds the master record. -/
theorem workers_zero (env : Nat → NodeEnv) (nodes gpn : Nat) (pg : Bool)
    (res : List String) (nrpn : Option Nat) :
    ((initiateActors env nodes gpn pg res nrpn).workers)[0]?
      = some ⟨nodes * gpn, 0, none, none,
          if pg || decide (1 < gpn) then some 0 else none,
          DistributedTorchRayActor.init (env 0) (nodes * gpn) 0 none none⟩ := by
  simp only [initiateActors]
  exact List.getElem?_cons_zero

/-- Handler position `j + 1` holds the record created at rank `j + 1`,
carrying the master's endpoint. -/
theorem workers_succ (env : Nat → NodeEnv) (nodes gpn : Nat) (pg : Bool)
    (res : List String) (nrpn : Option Nat) {j : Nat}
    (hj : j < nodes * gpn - 1) :
    ((initiateActors env nodes gpn pg res nrpn).workers)[j + 1]?
      = some ⟨nodes * gpn, j + 1,
          some ((DistributedTorchRayActor.init (env 0) (nodes * gpn) 0
            none none).get_master_addr_port.1),
          some ((DistributedTorchRayActor.init (env 0) (nodes * gpn) 0
            none none).get_master_addr_port.2),
          if pg || decide (1 < gpn) then some ((j + 1) / gpn) else none,
          DistributedTorchRayActor.init (env (j + 1)) (nodes * gpn) (j + 1)
            (some ((DistributedTorchRayActor.init (env 0) (nodes * gpn) 0
              none none).get_master_addr_port.1))
            (some ((DistributedTorchRayActor.init (env 0) (nodes * gpn) 0
              none none).get_master_addr_port.2))⟩ := by
  simp only [initiateActors]
  rw [List.getElem?_cons_succ, List.getElem?_map, List.getElem?_range hj]
  rfl

/-- C7: a constructed group holds exactly `nodes * devices_per_node`
handlers, the handler at position `k` was created with rank `k` and that
world size, and each broadcast `async_*` operation issues exactly one
remote call per handler in this order. -/
theorem C7_group_size_and_rank_order (env : Nat → NodeEnv)
    (nodes gpn : Nat) (pg : Bool) (res : List String) (nrpn : Option Nat)
    (h1 : 1 ≤ nodes) (h2 : 1 ≤ gpn) :
    ((initiateActors env nodes gpn pg res nrpn).workers).length
        = nodes * gpn
    ∧ (∀ k, k < nodes * gpn →
        ∃ w : WorkerRecord,
          ((initiateActors env nodes gpn pg res nrpn).workers)[k]? = some w
          ∧ w.created_rank = k ∧ w.created_world_size = nodes * gpn)
    ∧ (async_init_model_from_pretrained
        (initiateActors env nodes gpn pg res nrpn)).map (fun c => c.target)
        = (initiateActors env nodes gpn pg res nrpn).workers
    ∧ (async_save_model (initiateActors env nodes gpn pg res nrpn)).map
        (fun c => c.target)
        = (initiateActors env nodes gpn pg res nrpn).workers
    ∧ ∀ m, (async_run_method (initiateActors env nodes gpn pg res nrpn)
        m).map (fun c => c.target)
        = (initiateActors env nodes gpn pg res nrpn).workers := by
  have hws : 1 ≤ nodes * gpn := Nat.one_le_iff_ne_zero.mpr (by positivity)
  refine ⟨?_, ?_, ?_, ?_, ?_⟩
  · simp only [initiateActors, List.length_cons, List.length_map,
      List.length_range]
    omega
  · intro k hk
    cases k with
    | zero => exact ⟨_, workers_zero env nodes gpn pg res nrpn, rfl, rfl⟩
    | succ j =>
      exact ⟨_, workers_succ env nodes gpn pg res nrpn (by omega), rfl, rfl⟩
  · rw [async_init_model_from_pretrained, List.map_map]
    exact List.map_id _
  · rw [async_save_model, List.map_map]
    exact List.map_id _
  · intro m
    rw [async_run_method, List.map_map]
    exact List.map_id _

/-- Witness for C7: two nodes, two devices per node. -/
theorem C7_group_size_and_rank_order_witness :
    ((initiateActors envW 2 2 false [] none).workers).length = 2 * 2
    ∧ (∀ k, k < 2 * 2 →
        ∃ w : WorkerRecord,
          ((initiateActors envW 2 2 false [] none).workers)[k]? = some w
          ∧ w.created_rank = k ∧ w.created_world_size = 2 * 2)
    ∧ (async_init_model_from_pretrained
        (initiateActors envW 2 2 false [] none)).map (fun c => c.target)
        = (initiateActors envW 2 2 false [] none).workers
    ∧ (async_save_model (initiateActors envW 2 2 false [] none)).map
        (fun c => c.target)
        = (initiateActors envW 2 2 false [] none).workers
    ∧ ∀ m, (async_run_method (initiateActors envW 2 2 false [] none)
        m).map (fun c => c.target)
        = (initiateActors envW 2 2 false [] none).workers :=
  C7_group_size_and_rank_order envW 2 2 false [] none (by decide)
    (by decide)

/-- C8: whenever a placement group is in effect (supplied, or created
because `devices_per_node > 1`), the worker at rank `k` is scheduled with
bundle index `k / devices_per_node`. -/
theorem C8_bundle_index_mapping (env : Nat → NodeEnv) (nodes gpn : Nat)
    (pg : Bool) (res : List String) (nrpn : Option Nat)
    (hpg : pg = true ∨ 1 < gpn) (k : Nat) (hk : k < nodes * gpn) :
    ∃ w : WorkerRecord,
      ((initiateActors env nodes gpn pg res nrpn).workers)[k]? = some w
      ∧ w.bundle_index = some (k / gpn) := by
  have heff : (pg || decide (1 < gpn)) = true := by
    rcases hpg with h | h <;> simp [h]
  cases k with
  | zero =>
    refine ⟨_, workers_zero env nodes gpn pg res nrpn, ?_⟩
    simp [heff, Nat.zero_div]
  | succ j =>
    refine ⟨_, workers_succ env nodes gpn pg res nrpn (by omega), ?_⟩
    simp [heff]

/-- Witness for C8 at nodes=2, devices_per_node=4, rank 5: bundle 1. -/
theorem C8_bundle_index_mapping_witness :
    ∃ w : WorkerRecord,
      ((initiateActors envW 2 4 false [] none).workers)[5]? = some w
      ∧ w.bundle_index = some (5 / 4) :=
  C8_bundle_index_mapping envW 2 4 false [] none (Or.inr (by decide)) 5
    (by decide)

/-- C5: three-way placement decision at group construction.  With
`devices_per_node > 1` and no supplied placement group, exactly `nodes`
bundles are requested under `STRICT_SPREAD` with a block until ready, each
asking `devices_per_node` GPUs and CPUs, plus — when a custom resource is
declared — its per-node amount on every bundle; with
`devices_per_node <= 1` and none supplied, no request is made; a supplied
placement group is never re-requested.  The custom resource name is
assumed distinct from the built-in `GPU`/`CPU` keys. -/
theorem C5_placement_decision (env : Nat → NodeEnv) (nodes gpn : Nat)
    (res : List String) (nrpn : Option Nat)
    (hGPU : "GPU" ∉ res) (hCPU : "CPU" ∉ res) :
    (1 < gpn →
      ∃ req, (initiateActors env nodes gpn false res nrpn).request
          = some req
        ∧ req.strategy = "STRICT_SPREAD"
        ∧ req.waited_ready = true
        ∧ req.bundles.length = nodes
        ∧ ∀ b ∈ req.bundles,
            dictGet b "GPU" = some (some gpn)
            ∧ dictGet b "CPU" = some (some gpn)
            ∧ ∀ name tl, res = name :: tl → dictGet b name = some nrpn)
    ∧ (gpn ≤ 1 →
        (initiateActors env nodes gpn false res nrpn).request = none)
    ∧ (initiateActors env nodes gpn true res nrpn).request = none := by
  refine ⟨?_, ?_, ?_⟩
  · intro hgpn
    refine ⟨⟨mkBundles nodes gpn res nrpn, "STRICT_SPREAD", true⟩, ?_,
      rfl, rfl, ?_, ?_⟩
    · simp only [initiateActors]
      rw [if_pos ⟨hgpn, trivial⟩]
    · cases res with
      | nil => simp [mkBundles]
      | cons name tl => simp [mkBundles]
    · intro b hb
      cases hres : res with
      | nil =>
        subst hres
        simp only [mkBundles, List.eq_of_mem_replicate hb]
        refine ⟨rfl, rfl, ?_⟩
        intro name tl h
        cases h
      | cons name tl =>
        subst hres
        have hne1 : name ≠ "GPU" := fun h => hGPU (by simp [h])
        have hne2 : name ≠ "CPU" := fun h => hCPU (by simp [h])
        have hbeq1 : (("GPU" : String) == name) = false := by
          rw [beq_eq_false_iff_ne]
          exact Ne.symm hne1
        have hbeq2 : (("CPU" : String) == name) = false := by
          rw [beq_eq_false_iff_ne]
          exact Ne.symm hne2
        simp only [mkBundles, List.mem_map] at hb
        obtain ⟨a, ha, rfl⟩ := hb
        have ha' := List.eq_of_mem_replicate ha
        subst ha'
        have hset : dictSet [("GPU", some gpn), ("CPU", some gpn)] name nrpn
            = [("GPU", some gpn), ("CPU", some gpn), (name, nrpn)] := by
          simp [dictSet, hbeq1, hbeq2]
        rw [hset]
        refine ⟨?_, ?_, ?_⟩
        · simp [dictGet]
        · simp [dictGet, List.find?, hbeq2]
        · intro name2 tl2 h2
          obtain ⟨rfl, rfl⟩ : name2 = name ∧ tl2 = tl := by
            constructor <;> injection h2 <;> simp_all
          simp [dictGet, List.find?, hbeq1, hbeq2]
  · intro hgpn
    simp only [initiateActors]
    rw [if_neg]
    intro hcontra
    omega
  · simp only [initiateActors]
    rw [if_neg]
    intro hcontra
    simp at hcontra

/-- Witness for C5 at nodes=2, devices_per_node=4, custom resource `acc`
with 7 units per node. -/
theorem C5_placement_decision_witness :
    (1 < 4 →
      ∃ req, (initiateActors envW 2 4 false ["acc"] (some 7)).request
          = some req
        ∧ req.strategy = "STRICT_SPREAD"
        ∧ req.waited_ready = true
        ∧ req.bundles.length = 2
        ∧ ∀ b ∈ req.bundles,
            dictGet b "GPU" = some (some 4)
            ∧ dictGet b "CPU" = some (some 4)
            ∧ ∀ name tl, ["acc"] = name :: tl →
                dictGet b name = some (some 7))
    ∧ (4 ≤ 1 →
        (initiateActors envW 2 4 false ["acc"] (some 7)).request = none)
    ∧ (initiateActors envW 2 4 true ["acc"] (some 7)).request = none :=
  C5_placement_decision envW 2 4 ["acc"] (some 7) (by decide) (by decide)

/-- C2 counterexample: the claim as stated promises dispatch whenever
exactly one remote endpoint is supplied, but with no critic group the
call instead raises `AttributeError` (the unconditional debug-print
dereference right after the assertion) and dispatches nothing. -/
theorem C2_counterexample_none_critic :
    async_fit_actor_model [10] none [20] [] ["u"] false
      = Except.error
          "AttributeError: NoneType object has no attribute _actor_handlers" :=
  rfl

/-- C2 (amended): `async_fit_actor_model` fails on the assertion before
any dispatch (returning the assertion error and no fit calls) exactly
when no aggregation function is supplied, there is not exactly one remote
reward endpoint, and not exactly one reward group — for every critic
argument; when the precondition passes and a critic group is supplied, it
dispatches one fit call per policy worker.  (When it passes with no
critic group, the call raises `AttributeError` after the assertion, still
before any dispatch — see the counterexample.) -/
theorem C2_reward_source_precondition (p : List Nat)
    (c : Option (List Nat)) (cl r : List Nat) (rs : List (List Nat))
    (urls : List String) (fn : Bool) :
    (fn = false → urls.length ≠ 1 → rs.length ≠ 1 →
      async_fit_actor_model p c r rs urls fn
        = Except.error
            "reward_fn must be specified if using multiple reward models")
    ∧ ((urls.length = 1 ∨ rs.length = 1 ∨ fn = true) →
      ∃ refs, async_fit_actor_model p (some cl) r rs urls fn
          = Except.ok refs ∧ refs.length = p.length) := by
  constructor
  · intro hfn h1 h2
    unfold async_fit_actor_model
    rw [if_neg]
    intro hcond
    rcases (fit_guard_iff urls rs fn).1 hcond with h | h | h
    · exact h1 h
    · exact h2 h
    · rw [hfn] at h
      cases h
  · intro h
    refine ⟨p.enum.map (mkFitCall (some cl) r rs urls fn), ?_, ?_⟩
    · unfold async_fit_actor_model
      rw [if_pos ((fit_guard_iff urls rs fn).2 h)]
    · simp [List.enum_eq_enumFrom]

/-- Witness for C2: two reward groups and no aggregation function fail
the assertion; one remote endpoint beside the same two groups, with a
critic group supplied, dispatches to both policy workers. -/
theorem C2_reward_source_precondition_witness :
    async_fit_actor_model [10] none [20] [[30], [31]] [] false
      = Except.error
          "reward_fn must be specified if using multiple reward models"
    ∧ ∃ refs,
        async_fit_actor_model [10, 11] (some [40]) [20] [[30], [31]]
            ["u"] false
          = Except.ok refs ∧ refs.length = 2 :=
  ⟨(C2_reward_source_precondition [10] none [40] [20] [[30], [31]] []
      false).1 rfl (by decide) (by decide),
   (C2_reward_source_precondition [10, 11] none [40] [20] [[30], [31]]
      ["u"] false).2 (Or.inl rfl)⟩

/-- C9: with a non-empty remote endpoint list, every dispatched fit call
carries an empty reward-actor list — reward groups passed alongside are
never consulted. -/
theorem C9_remote_urls_precedence (p r : List Nat)
    (c : Option (List Nat)) (rs : List (List Nat)) (urls : List String)
    (fn : Bool) (refs : List FitCall) (hurls : urls ≠ [])
    (hok : async_fit_actor_model p c r rs urls fn = Except.ok refs) :
    ∀ ref ∈ refs, ref.reward_model = [] := by
  have hrefs := async_fit_ok_eq hok
  subst hrefs
  intro ref href
  simp only [List.mem_map] at href
  obtain ⟨ia, _, rfl⟩ := href
  cases urls with
  | nil => exact absurd rfl hurls
  | cons u tl => simp [mkFitCall]

/-- Witness for C9: one endpoint, two reward groups supplied alongside
and a critic group of one — the second policy worker's fit call still has
no reward actors. -/
theorem C9_remote_urls_precedence_witness :
    (⟨11, some 40, some 20, [], ["u"], false, some false⟩ :
      FitCall).reward_model = [] :=
  C9_remote_urls_precedence [10, 11] [20] (some [40]) [[30], [31]] ["u"]
    false
    [⟨10, some 40, some 20, [], ["u"], false, some true⟩,
     ⟨11, some 40, some 20, [], ["u"], false, some false⟩]
    (by decide) rfl
    ⟨11, some 40, some 20, [], ["u"], false, some false⟩ (by decide)

/-- C1: round-robin peer binding — for policy worker `i`, the dispatched
fit call binds reference actor `reference.workers[i % Q]`, critic actor
`critic.workers[i % C]` when a critic group is supplied, and, when no
remote endpoints are supplied, for each reward group in order that group's
`workers[i % size]`. -/
theorem C1_round_robin_binding (p : List Nat) (c : Option (List Nat))
    (r : List Nat) (rs : List (List Nat)) (urls : List String) (fn : Bool)
    (refs : List FitCall)
    (hok : async_fit_actor_model p c r rs urls fn = Except.ok refs)
    (i : Nat) (hi : i < p.length) (hr : 0 < r.length) :
    ∃ ref, refs[i]? = some ref
      ∧ ref.initial_model = some (r.get ⟨i % r.length, Nat.mod_lt i hr⟩)
      ∧ (∀ cl, c = some cl → ∀ hc : 0 < cl.length,
          ref.critic_model
            = some (cl.get ⟨i % cl.length, Nat.mod_lt i hc⟩))
      ∧ (urls = [] →
          ref.reward_model.length = rs.length
          ∧ ∀ (j : Nat) (grp : List Nat), rs[j]? = some grp →
              ∀ hg : 0 < grp.length,
              ref.reward_model[j]?
                = some (some (grp.get ⟨i % grp.length, Nat.mod_lt i hg⟩))) := by
  have hrefs := async_fit_ok_eq hok
  subst hrefs
  refine ⟨mkFitCall c r rs urls fn (i, p.get ⟨i, hi⟩), ?_, ?_, ?_, ?_⟩
  · rw [List.getElem?_map, List.enum_eq_enumFrom, List.getElem?_enumFrom,
      List.getElem?_eq_getElem hi]
    simp
  · exact roundRobin_pos r i hr
  · intro cl hcl hc
    subst hcl
    exact roundRobin_pos cl i hc
  · intro hu
    subst hu
    constructor
    · show (List.map (fun grp => roundRobin grp i) rs).length = rs.length
      simp
    · intro j grp hj hg
      show (List.map (fun grp => roundRobin grp i) rs)[j]? = _
      rw [List.getElem?_map, hj]
      simp [roundRobin_pos grp i hg]

/-- Witness for C1: five policy workers over peer groups of sizes 2, 2
and 3 yield the `[0,1,0,1,0]` reference bindings, and at `i = 3` the
bound peers are at index `3 % size` of each group. -/
theorem C1_round_robin_binding_witness :
    ((async_fit_actor_model [10, 11, 12, 13, 14] (some [40, 41]) [20, 21]
        [[30, 31, 32]] [] false).toOption.map
        (fun l => l.map (fun x => x.initial_model))
      = some [some 20, some 21, some 20, some 21, some 20])
    ∧ ∃ ref,
        ([(⟨10, some 40, some 20, [some 30], [], false, some true⟩ :
            FitCall),
          ⟨11, some 41, some 21, [some 31], [], false, some true⟩,
          ⟨12, some 40, some 20, [some 32], [], false, some false⟩,
          ⟨13, some 41, some 21, [some 30], [], false, some false⟩,
          ⟨14, some 40, some 20, [some 31], [], false, some false⟩])[3]?
          = some ref
        ∧ ref.initial_model
            = some (([20, 21] : List Nat).get ⟨3 % 2, by decide⟩)
        ∧ (∀ cl, (some [40, 41] : Option (List Nat)) = some cl →
            ∀ hc : 0 < cl.length,
            ref.critic_model
              = some (cl.get ⟨3 % cl.length, Nat.mod_lt 3 hc⟩))
        ∧ (([] : List String) = [] →
            ref.reward_model.length = [[30, 31, 32]].length
            ∧ ∀ (j : Nat) (grp : List Nat),
                ([[30, 31, 32]] : List (List Nat))[j]? = some grp →
                ∀ hg : 0 < grp.length,
                ref.reward_model[j]?
                  = some (some (grp.get ⟨3 % grp.length,
                      Nat.mod_lt 3 hg⟩))) :=
  ⟨by decide,
   C1_round_robin_binding [10, 11, 12, 13, 14] (some [40, 41]) [20, 21]
     [[30, 31, 32]] [] false
     [⟨10, some 40, some 20, [some 30], [], false, some true⟩,
      ⟨11, some 41, some 21, [some 31], [], false, some true⟩,
      ⟨12, some 40, some 20, [some 32], [], false, some false⟩,
      ⟨13, some 41, some 21, [some 30], [], false, some false⟩,
      ⟨14, some 40, some 20, [some 31], [], false, some false⟩]
     rfl 3 (by decide) (by decide)⟩

/-- C3: contrary to the claim, `async_fit_actor_model` does not accept an
absent critic group.  Past the assertion, the debug print dereferences
`critic_model_group._actor_handlers` unconditionally, so a `None` critic
group raises `AttributeError` before any fit call is issued — even though
the very next line guards `if critic_model_group else None` and the
dispatch loop handles an absent critic actor, showing the claimed
behaviour is the evident intent.  This theorem evaluates the embedded
code at the failing input: one reward group, valid precondition, `None`
critic group. -/
theorem C3_none_critic_attribute_error :
    async_fit_actor_model [10, 11, 12] none [20, 21] [[30]] [] false
      = Except.error
          "AttributeError: NoneType object has no attribute _actor_handlers" :=
  rfl

/-- C4: with a critic group of size `C` supplied, policy worker `i` gets
`critic_train_remote = (i < C)`, so it is true for exactly
`min(P, C)` policy workers — those with `i < C`. -/
theorem C4_critic_train_remote_ownership (p r cl : List Nat)
    (rs : List (List Nat)) (urls : List String) (fn : Bool)
    (refs : List FitCall) (hc : 0 < cl.length)
    (hok : async_fit_actor_model p (some cl) r rs urls fn
      = Except.ok refs) :
    (∀ i, i < p.length →
      ∃ ref, refs[i]? = some ref
        ∧ ref.critic_train_remote = some (decide (i < cl.length)))
    ∧ refs.countP (fun ref => ref.critic_train_remote == some true)
        = min p.length cl.length := by
  have hrefs := async_fit_ok_eq hok
  subst hrefs
  constructor
  · intro i hi
    refine ⟨mkFitCall (some cl) r rs urls fn (i, p.get ⟨i, hi⟩), ?_, ?_⟩
    · rw [List.getElem?_map, List.enum_eq_enumFrom, List.getElem?_enumFrom,
        List.getElem?_eq_getElem hi]
      simp
    · exact mkFitCall_ctr cl r rs urls fn (i, p.get ⟨i, hi⟩) hc
  · rw [List.countP_map]
    have hfun : ((fun ref => ref.critic_train_remote == some true) ∘
        mkFitCall (some cl) r rs urls fn)
        = fun x => decide (x.1 < cl.length) := by
      funext x
      show ((mkFitCall (some cl) r rs urls fn x).critic_train_remote
        == some true) = decide (x.1 < cl.length)
      rw [mkFitCall_ctr cl r rs urls fn x hc]
      cases hdec : decide (x.1 < cl.length) <;> rfl
    rw [hfun, List.enum_eq_enumFrom, countP_enumFrom_fst_lt]
    simp

/-- Witness for C4: five policy workers, critic group of two — the flag is
true for exactly the first two. -/
theorem C4_critic_train_remote_ownership_witness :
    (∀ i, i < ([10, 11, 12, 13, 14] : List Nat).length →
      ∃ ref,
        ([(⟨10, some 40, some 20, [some 30], [], false, some true⟩ :
            FitCall),
          ⟨11, some 41, some 20, [some 30], [], false, some true⟩,
          ⟨12, some 40, some 20, [some 30], [], false, some false⟩,
          ⟨13, some 41, some 20, [some 30], [], false, some false⟩,
          ⟨14, some 40, some 20, [some 30], [], false, some false⟩])[i]?
          = some ref
        ∧ ref.critic_train_remote
            = some (decide (i < ([40, 41] : List Nat).length)))
    ∧ ([(⟨10, some 40, some 20, [some 30], [], false, some true⟩ :
          FitCall),
        ⟨11, some 41, some 20, [some 30], [], false, some true⟩,
        ⟨12, some 40, some 20, [some 30], [], false, some false⟩,
        ⟨13, some 41, some 20, [some 30], [], false, some false⟩,
        ⟨14, some 40, some 20, [some 30], [], false, some false⟩] :
        List FitCall).countP
        (fun ref => ref.critic_train_remote == some true)
        = min ([10, 11, 12, 13, 14] : List Nat).length
            ([40, 41] : List Nat).length :=
  C4_critic_train_remote_ownership [10, 11, 12, 13, 14] [20] [40, 41]
    [[30]] [] false
    [⟨10, some 40, some 20, [some 30], [], false, some true⟩,
     ⟨11, some 41, some 20, [some 30], [], false, some true⟩,
     ⟨12, some 40, some 20, [some 30], [], false, some false⟩,
     ⟨13, some 41, some 20, [some 30], [], false, some false⟩,
     ⟨14, some 40, some 20, [some 30], [], false, some false⟩]
    (by decide) rfl

end OpenRLHF
